import Mathlib

/-!
Shallow embedding of the phishing-URL feature-extraction pipeline
(`script.py`): URL parsing helpers mirroring `urllib.parse.urlparse`,
the page analyzers (`extract_link_density`, `extract_link_features`,
`extract_iframes`, `extract_if_https`), the network probes
(`extract_ip_address`, `extract_certificate`, `extract_whois`),
the row builder (`get_row`), the dataset assembler (`create_dataset`)
and the curation steps of `main`.
-/

namespace PhishScript

/-- Result of a feature computation: either a real value or the string
sentinel `'Error'` produced by a `except Exception` handler. -/
inductive Res (α : Type) : Type
  | val (a : α)
  | error
  deriving DecidableEq, Repr

/-! ## Model of `urllib.parse.urlparse` (the parts the script uses) -/

/-- Characters allowed in a URL scheme after the first one
(CPython `scheme_chars`). -/
def schemeChar (c : Char) : Bool :=
  c.isAlphanum || c = '+' || c = '-' || c = '.'

/-- Split a character list at its first `':'`: `some (before, after)`,
or `none` when there is no colon. -/
def splitOnColon : List Char → Option (List Char × List Char)
  | [] => none
  | c :: cs =>
    if c = ':' then some ([], cs)
    else (splitOnColon cs).map (fun p => (c :: p.1, p.2))

/-- Lowercased scheme of a URL and the remainder after the colon.
When the candidate before the first colon is empty, does not start with
a letter, or holds a non-scheme character, CPython treats the whole
string as having no scheme (`scheme = ''`). -/
def urlSchemeRest (s : String) : String × String :=
  match splitOnColon s.toList with
  | some (pre, post) =>
    match pre with
    | [] => ("", s)
    | c :: _ =>
      if c.isAlpha && pre.all schemeChar then
        (String.mk (pre.map Char.toLower), String.mk post)
      else ("", s)
  | none => ("", s)

/-- `urlparse(s).scheme`: lowercased scheme, `""` when absent. -/
def urlScheme (s : String) : String := (urlSchemeRest s).1

/-- `urlparse(s).netloc`: present only when the part after the scheme
starts with `//`; runs until the next `/`, `?` or `#`. -/
def urlNetloc (s : String) : String :=
  match (urlSchemeRest s).2.toList with
  | '/' :: '/' :: t =>
    String.mk (t.takeWhile (fun c => c ≠ '/' && c ≠ '?' && c ≠ '#'))
  | _ => ""

/-- `urlparse(s).hostname`: the netloc with userinfo and port stripped,
lowercased; `none` when empty (CPython returns `None` then). -/
def urlHostname (s : String) : Option String :=
  let netloc := (urlNetloc s).toList
  let hostinfo := (netloc.reverse.takeWhile (· ≠ '@')).reverse
  let host :=
    match hostinfo with
    | '[' :: t => t.takeWhile (· ≠ ']')
    | _ => hostinfo.takeWhile (· ≠ ':')
  if host = [] then none else some (String.mk (host.map Char.toLower))

/-- Python `needle in haystack` on strings: substring containment. -/
def pyIn (needle haystack : String) : Bool :=
  decide (List.IsInfix needle.toList haystack.toList)

/-- Python `s.startswith(pre)`: prefix test. -/
def pyStartsWith (s pre : String) : Bool :=
  decide (List.IsPrefix pre.toList s.toList)

/-- Python `s.split()` with no argument: whitespace-separated words,
empty pieces discarded. -/
def pyWords (s : String) : List String :=
  (s.split Char.isWhitespace).filter (· ≠ "")

/-! ## Model of the parsed document (`BeautifulSoup`) -/

/-- An `<a>` element: its `href` attribute, when present. -/
structure Anchor where
  href : Option String
  deriving DecidableEq, Repr

/-- An `<iframe>` element: its `src`, `width` and `height` attributes,
each possibly absent. -/
structure Iframe where
  src : Option String
  width : Option String
  height : Option String
  deriving DecidableEq, Repr

/-- A parsed HTML document, reduced to what the analyzers query:
the anchor elements (`find_all('a')`), the iframe elements
(`find_all('iframe')`) and the visible text (`get_text`). -/
structure Soup where
  anchors : List Anchor
  iframes : List Iframe
  text : String
  deriving DecidableEq, Repr

/-- `find_all('a', href=True)` followed by `a['href']`: the hrefs of the
anchors that have one, in document order. -/
def hrefs (soup : Soup) : List String :=
  soup.anchors.filterMap (·.href)

/-! ## Page analyzers -/

/-- `extract_link_density`: anchor count over word count of the visible
text, `0` when the word count is `0`. -/
def extract_link_density (soup : Soup) : Res ℚ :=
  let link_count := soup.anchors.length
  let word_count := (pyWords soup.text).length
  .val (if word_count > 0 then (link_count : ℚ) / (word_count : ℚ) else 0)

/-- The six counters accumulated by the loop of `extract_link_features`. -/
structure LinkCounts where
  external : Nat
  internal : Nat
  ipBased : Nat
  https : Nat
  http : Nat
  non : Nat
  deriving DecidableEq, Repr

/-- One iteration of the loop of `extract_link_features`: classify one
href against the page's domain and bump the matching counters. -/
def linkStep (domain : String) (c : LinkCounts) (link : String) : LinkCounts :=
  let netloc := urlNetloc link
  let c :=
    if netloc ≠ "" && !(pyIn domain netloc) then
      { c with external := c.external + 1 } else c
  let c :=
    if netloc ≠ "" && pyIn domain netloc then
      { c with internal := c.internal + 1 } else c
  let c :=
    match urlHostname link with
    | some h =>
      let digits := h.toList.filter (· ≠ '.')
      if digits ≠ [] && digits.all Char.isDigit then
        { c with ipBased := c.ipBased + 1 } else c
    | none => c
  if urlScheme link = "https" then { c with https := c.https + 1 }
  else if urlScheme link = "http" then { c with http := c.http + 1 }
  else { c with non := c.non + 1 }

/-- `extract_link_features`: fold the classification loop over all
anchors with an `href` and return the six counters. -/
def extract_link_features (soup : Soup) (domain : String) :
    Res Nat × Res Nat × Res Nat × Res Nat × Res Nat × Res Nat :=
  let c := (hrefs soup).foldl (linkStep domain) ⟨0, 0, 0, 0, 0, 0⟩
  (.val c.external, .val c.internal, .val c.ipBased,
   .val c.https, .val c.http, .val c.non)

/-- One iteration of the loop of `extract_iframes`: the external check
(`src` has a netloc and the placeholder is not a substring of `src`)
and the hidden check (`width` or `height` attribute equals `"0"`). -/
def iframeStep (c : Nat × Nat) (ifr : Iframe) : Nat × Nat :=
  let src := ifr.src.getD ""
  let c1 :=
    if urlNetloc src ≠ "" && !(pyIn "your-website-domain.com" src) then
      c.1 + 1 else c.1
  let c2 :=
    if ifr.width = some "0" || ifr.height = some "0" then c.2 + 1 else c.2
  (c1, c2)

/-- `extract_iframes`: count external and hidden iframes. -/
def extract_iframes (soup : Soup) : Res Nat × Res Nat :=
  let c := soup.iframes.foldl iframeStep (0, 0)
  (.val c.1, .val c.2)

/-- `extract_if_https`: `url.startswith(('https', 'http'))` mapped to
`1` / `0`. -/
def extract_if_https (url : String) : Res Nat :=
  if pyStartsWith url "https" || pyStartsWith url "http" then .val 1 else .val 0

/-! ## Network probes

Each probe's external call is modelled by an oracle result: `none` means
the library call (or a dictionary/index access on its result) raised,
`some` carries what it returned. The probe body maps that outcome
through the source's `try`/`except` structure. -/

/-- `extract_ip_address`: `socket.gethostbyname`, `'Error'` on any
exception. -/
def extract_ip_address (lookup : Option String) : Res String :=
  match lookup with
  | some ip => .val ip
  | none => .error

/-- The peer certificate as returned by `getpeercert()`: the `issuer`
sequence of RDNs (each a sequence of name/value pairs) and the validity
window strings. -/
structure PeerCert where
  issuer : List (List (String × String))
  notBefore : String
  notAfter : String
  deriving DecidableEq, Repr

/-- `certificate['issuer'][i][0][1]`: value of the first pair of the
`i`-th issuer RDN; `none` when the access would raise `IndexError`. -/
def issuerField (cert : PeerCert) (i : Nat) : Option String :=
  (cert.issuer.get? i).bind (fun rdn => (rdn.get? 0).map (·.2))

/-- `extract_certificate`: connect, handshake and read the peer
certificate's issuer country / organization / common name and validity
window; the single `except` turns any failure — connection, handshake,
or an index error while reading the issuer — into five `'Error'`s. -/
def extract_certificate (probe : Option PeerCert) :
    Res String × Res String × Res String × Res String × Res String :=
  match probe with
  | none => (.error, .error, .error, .error, .error)
  | some cert =>
    match issuerField cert 0, issuerField cert 1, issuerField cert 2 with
    | some country, some org, some cn =>
      (.val country, .val org, .val cn, .val cert.notBefore, .val cert.notAfter)
    | _, _, _ => (.error, .error, .error, .error, .error)

/-- The three fields `extract_whois` reads from the WHOIS response;
a `none` field models a key whose access raises. -/
structure WhoisInfo where
  country : Option String
  creationDate : Option String
  expirationDate : Option String
  deriving DecidableEq, Repr

/-- `extract_whois`: `whois.whois(domain)` then the three key accesses;
any exception yields three `'Error'`s. -/
def extract_whois (probe : Option WhoisInfo) :
    Res String × Res String × Res String :=
  match probe with
  | none => (.error, .error, .error)
  | some w =>
    match w.country, w.creationDate, w.expirationDate with
    | some c, some cr, some ex => (.val c, .val cr, .val ex)
    | _, _, _ => (.error, .error, .error)

/-! ## Row builder and dataset assembler -/

/-- The two request-level exceptions `create_dataset` catches:
`requests.exceptions.Timeout` and any other
`requests.exceptions.RequestException`. -/
inductive FetchErr : Type
  | timeout
  | requestError (msg : String)
  deriving DecidableEq, Repr

/-- The network environment one run sees: the page fetch keyed by the
fetched URL, and the three domain probes keyed by domain. -/
structure Env where
  fetch : String → Except FetchErr Soup
  gethostbyname : String → Option String
  peercert : String → Option PeerCert
  whoisLookup : String → Option WhoisInfo

/-- One row of the dataset, with the fields `get_row` assembles. -/
structure Row where
  url : String
  domain : String
  ipAddress : Res String
  linkDensity : Res ℚ
  externalLinksCount : Res Nat
  internalLinksCount : Res Nat
  externalIpCount : Res Nat
  httpCount : Res Nat
  httpsCount : Res Nat
  nonCount : Res Nat
  externalIframesCount : Res Nat
  hiddenIframesCount : Res Nat
  country : Res String
  organization : Res String
  certificate : Res String
  certNotBefore : Res String
  certNotAfter : Res String
  ifHttps : Res Nat
  whoisCountry : Res String
  whoisCreationDate : Res String
  whoisExpirationDate : Res String
  deriving DecidableEq, Repr

/-- `get_row`: fetch `http_url` (the only uncaught failure), parse it,
then run every analyzer on the parsed document and every probe on the
domain, and assemble the Feature Record. -/
def get_row (env : Env) (url http_url : String) : Except FetchErr Row :=
  match env.fetch http_url with
  | .error e => .error e
  | .ok soup =>
    let domain := urlNetloc http_url
    let ip_address := extract_ip_address (env.gethostbyname domain)
    let link_density := extract_link_density soup
    let (ext, intl, extIp, hs, ht, non) := extract_link_features soup domain
    let (extIfr, hidIfr) := extract_iframes soup
    let (country, org, cert, nb, na) :=
      extract_certificate (env.peercert domain)
    let if_https := extract_if_https url
    let (wCountry, wCreate, wExpire) := extract_whois (env.whoisLookup domain)
    .ok { url := url, domain := domain, ipAddress := ip_address,
          linkDensity := link_density,
          externalLinksCount := ext, internalLinksCount := intl,
          externalIpCount := extIp, httpCount := ht, httpsCount := hs,
          nonCount := non,
          externalIframesCount := extIfr, hiddenIframesCount := hidIfr,
          country := country, organization := org, certificate := cert,
          certNotBefore := nb, certNotAfter := na, ifHttps := if_https,
          whoisCountry := wCountry, whoisCreationDate := wCreate,
          whoisExpirationDate := wExpire }

/-- How one run of `create_dataset` ends: a finished table, or the
uncaught `UnboundLocalError` raised when `http_url` is read before any
iteration has assigned it. -/
inductive BatchOutcome : Type
  | table (rows : List Row)
  | unboundLocalError
  deriving DecidableEq, Repr

/-- The loop of `create_dataset`. The state carries the accumulated
table and the current value of the `http_url` variable, which persists
across iterations because the `if not urlparse(url).scheme` statement
has no `else` branch: a URL that already has a scheme reuses the
previous iteration's `http_url`, and reading it before any assignment
raises `UnboundLocalError`. Fetch failures (`Timeout`,
`RequestException`) are caught, skip the URL and continue. -/
def create_dataset_go (env : Env) :
    List String → List Row → Option String → BatchOutcome
  | [], df, _ => .table df
  | url :: rest, df, prev =>
    let http_url := if urlScheme url = "" then some ("http://" ++ url) else prev
    match http_url with
    | none => .unboundLocalError
    | some hu =>
      match get_row env url hu with
      | .error _ => create_dataset_go env rest df http_url
      | .ok row => create_dataset_go env rest (df ++ [row]) http_url

/-- `create_dataset`: run the loop from an empty table with `http_url`
not yet assigned. -/
def create_dataset (env : Env) (urls : List String) : BatchOutcome :=
  create_dataset_go env urls [] none

/-! ## Dataset curation (`main`, lines after the two `create_dataset`
calls) -/

/-- One row of the labeled source table: its `URL` and `type` columns. -/
structure Labeled where
  url : String
  type : String
  deriving DecidableEq, Repr

/-- `pd.merge(feats, labels, on='URL', how='left')`: every feature row
is kept, paired with each label row sharing its URL, or with no label
when none matches. -/
def mergeLeft (feats : List Row) (labels : List Labeled) :
    List (Row × Option Labeled) :=
  feats.flatMap (fun r =>
    let ms := labels.filter (fun l => l.url = r.url)
    if ms.isEmpty then [(r, none)] else ms.map (fun l => (r, some l)))

/-- The curation steps of `main` after assembly: left-join each class
onto its labels, truncate — the source truncates `phishing_data` to 400
twice and never truncates `benign_data` — concatenate and shuffle.
`sample(frac=1, random_state=0)` is a fixed data-independent
permutation, abstracted as the `shuffle` argument. -/
def curate (shuffle : List (Row × Option Labeled) → List (Row × Option Labeled))
    (phishing_data benign_data : List Row)
    (df_phishing df_benign : List Labeled) :
    List (Row × Option Labeled) :=
  let p := mergeLeft phishing_data df_phishing
  let b := mergeLeft benign_data df_benign
  let p := p.take 400
  let p := p.take 400
  shuffle (p ++ b)

/-! ## Statement-level predicates and concrete fixtures -/

/-- The condition under which the loop of `extract_link_features` counts
a link as external: it has a network location and the page's domain is
not a substring of it. -/
def linkExternal (domain link : String) : Bool :=
  urlNetloc link ≠ "" && !(pyIn domain (urlNetloc link))

/-- The condition under which the loop of `extract_link_features` counts
a link as internal: it has a network location containing the page's
domain as a substring. -/
def linkInternal (domain link : String) : Bool :=
  urlNetloc link ≠ "" && pyIn domain (urlNetloc link)

/-- The condition under which the loop of `extract_iframes` counts an
iframe as external: its `src` has a network location and the self-domain
placeholder is not a substring of the `src` string. -/
def iframeExternal (ifr : Iframe) : Bool :=
  urlNetloc (ifr.src.getD "") ≠ "" &&
    !(pyIn "your-website-domain.com" (ifr.src.getD ""))

/-- The condition under which the loop of `extract_iframes` counts an
iframe as hidden: its declared `width` or `height` attribute is the
string `"0"`. -/
def iframeHidden (ifr : Iframe) : Bool :=
  ifr.width = some "0" || ifr.height = some "0"

/-- A network environment where every page fetch succeeds with an empty
document and every probe fails. -/
def envOkEmpty : Env :=
  { fetch := fun _ => .ok { anchors := [], iframes := [], text := "" },
    gethostbyname := fun _ => none,
    peercert := fun _ => none,
    whoisLookup := fun _ => none }

/-- A network environment where every page fetch times out. -/
def envTimeout : Env :=
  { fetch := fun _ => .error .timeout,
    gethostbyname := fun _ => none,
    peercert := fun _ => none,
    whoisLookup := fun _ => none }

/-- A feature row with the given URL and failure markers elsewhere, used
to build concrete tables. -/
def dummyRow (u : String) : Row :=
  { url := u, domain := "", ipAddress := .error, linkDensity := .val 0,
    externalLinksCount := .error, internalLinksCount := .error,
    externalIpCount := .error, httpCount := .error, httpsCount := .error,
    nonCount := .error, externalIframesCount := .error,
    hiddenIframesCount := .error, country := .error, organization := .error,
    certificate := .error, certNotBefore := .error, certNotAfter := .error,
    ifHttps := .val 0, whoisCountry := .error, whoisCreationDate := .error,
    whoisExpirationDate := .error }

/-- A benign feature table of 401 rows, one more than the configured
class size of 400. -/
def benign401 : List Row :=
  (List.range 401).map (fun i => dummyRow (toString i))

/-- The URL and domain column of an assembled table, `none` for an
aborted batch. -/
def tableUrlDomains : BatchOutcome → Option (List (String × String))
  | .table rows => some (rows.map (fun r => (r.url, r.domain)))
  | .unboundLocalError => none

/-! ## Helper lemmas -/

theorem pyStartsWith_http_of_https (s : String)
    (h : pyStartsWith s "https" = true) : pyStartsWith s "http" = true := by
  simp only [pyStartsWith, decide_eq_true_eq] at h ⊢
  exact List.IsPrefix.trans (by decide) h

theorem iframes_foldl (l : List Iframe) (a b : Nat) :
    l.foldl iframeStep (a, b) =
      (a + l.countP iframeExternal, b + l.countP iframeHidden) := by
  induction l generalizing a b with
  | nil => simp
  | cons ifr t ih =>
    rw [List.foldl_cons, List.countP_cons, List.countP_cons]
    show t.foldl iframeStep (iframeStep (a, b) ifr) = _
    rw [show iframeStep (a, b) ifr =
        ((if iframeExternal ifr then a + 1 else a),
         (if iframeHidden ifr then b + 1 else b)) from ?_]
    · rw [ih]
      split_ifs <;> simp <;> omega
    · unfold iframeStep iframeExternal iframeHidden
      split_ifs <;> simp_all

theorem linkStep_counts (d : String) (c : LinkCounts) (l : String) :
    (linkStep d c l).external =
      c.external + (if linkExternal d l then 1 else 0) ∧
    (linkStep d c l).internal =
      c.internal + (if linkInternal d l then 1 else 0) ∧
    (linkStep d c l).https + (linkStep d c l).http + (linkStep d c l).non =
      c.https + c.http + c.non + 1 := by
  unfold linkStep linkExternal linkInternal
  rcases hh : urlHostname l with _ | h <;>
    simp only [hh] <;> split_ifs <;> simp_all <;> omega

theorem linkCounts_foldl (d : String) (ls : List String) (c : LinkCounts) :
    (ls.foldl (linkStep d) c).external =
      c.external + ls.countP (linkExternal d) ∧
    (ls.foldl (linkStep d) c).internal =
      c.internal + ls.countP (linkInternal d) ∧
    (ls.foldl (linkStep d) c).https + (ls.foldl (linkStep d) c).http +
        (ls.foldl (linkStep d) c).non =
      c.https + c.http + c.non + ls.length := by
  induction ls generalizing c with
  | nil => simp
  | cons l t ih =>
    obtain ⟨he, hi, hs⟩ := ih (linkStep d c l)
    obtain ⟨se, si, ss⟩ := linkStep_counts d c l
    rw [List.foldl_cons, List.countP_cons, List.countP_cons, List.length_cons]
    refine ⟨?_, ?_, ?_⟩
    · rw [he, se]; split_ifs <;> omega
    · rw [hi, si]; split_ifs <;> omega
    · rw [hs, ss]; omega

theorem countP_external_internal (d : String) (ls : List String) :
    ls.countP (linkExternal d) + ls.countP (linkInternal d) =
      ls.countP (fun l => urlNetloc l ≠ "") := by
  induction ls with
  | nil => rfl
  | cons l t ih =>
    rw [List.countP_cons, List.countP_cons, List.countP_cons]
    have : (if linkExternal d l then 1 else 0) +
        (if linkInternal d l then 1 else 0) =
        (if (decide (urlNetloc l ≠ "")) then 1 else 0) := by
      unfold linkExternal linkInternal
      rcases hn : decide (urlNetloc l ≠ "") <;>
        rcases hp : pyIn d (urlNetloc l) <;> simp [hn, hp]
    omega

theorem get_row_fetch_error (env : Env) (url hu : String) (e : FetchErr)
    (h : env.fetch hu = .error e) : get_row env url hu = .error e := by
  unfold get_row
  rw [h]

theorem mergeLeft_labels_nil (feats : List Row) :
    mergeLeft feats [] = feats.map (fun r => (r, none)) := by
  induction feats with
  | nil => rfl
  | cons r t ih =>
    simp only [mergeLeft, List.flatMap_cons, List.filter_nil,
      List.isEmpty_nil, if_pos] at ih ⊢
    rw [ih, List.map_cons, List.singleton_append]

/-! ## Claims -/

/-- C2, counterexample: the claim says the `If HTTPS` field is `0` for a
URL presented with the `http` scheme, but `extract_if_https` returns `1`
for `"http://example.com"` because `startswith(('https', 'http'))`
accepts the plain `http` prefix as well. -/
theorem claim2_counterexample :
    extract_if_https "http://example.com" = Res.val 1 ∧
      Res.val 1 ≠ (Res.val 0 : Res Nat) := by
  exact ⟨by decide, by decide⟩

/-- C2, amended: the `If HTTPS` field is computed solely from the
original URL string's prefix and equals `1` exactly when that string
begins with `"http"` — which includes every `https` URL, `"http"` being
a prefix of `"https"` — and `0` otherwise. -/
theorem claim2_amended (url : String) :
    extract_if_https url =
      Res.val (if pyStartsWith url "http" then 1 else 0) := by
  unfold extract_if_https
  by_cases h : pyStartsWith url "http" = true
  · simp [h]
  · have h5 : pyStartsWith url "https" = false := by
      rcases hq : pyStartsWith url "https" with _ | _
      · rfl
      · exact absurd (pyStartsWith_http_of_https url hq) h
    simp [h, h5]

/-- C5: for every probe outcome, `extract_certificate` returns either
five real certificate fields or five failure markers — never a mix —
because connection, handshake and all issuer-field accesses sit inside
one `try` whose handler replaces the whole 5-tuple. -/
theorem claim5_certificate_atomic (probe : Option PeerCert) :
    extract_certificate probe =
      (.error, .error, .error, .error, .error) ∨
    ∃ a b c nb na, extract_certificate probe =
      (.val a, .val b, .val c, .val nb, .val na) := by
  rcases probe with _ | cert
  · exact .inl rfl
  · unfold extract_certificate
    rcases h0 : issuerField cert 0 with _ | a
    · exact .inl (by simp [h0])
    rcases h1 : issuerField cert 1 with _ | b
    · exact .inl (by simp [h0, h1])
    rcases h2 : issuerField cert 2 with _ | c
    · exact .inl (by simp [h0, h1, h2])
    · exact .inr ⟨a, b, c, cert.notBefore, cert.notAfter,
        by simp [h0, h1, h2]⟩

/-- C7: `extract_link_density` always returns a value — the ratio of
anchor count to word count when the word count is positive, `0` when
the document has no words — and that value is never negative. -/
theorem claim7_link_density (soup : Soup) :
    extract_link_density soup =
      .val (if 0 < (pyWords soup.text).length
            then (soup.anchors.length : ℚ) / ((pyWords soup.text).length : ℚ)
            else 0) ∧
    (0 : ℚ) ≤ (if 0 < (pyWords soup.text).length
            then (soup.anchors.length : ℚ) / ((pyWords soup.text).length : ℚ)
            else 0) := by
  constructor
  · rfl
  · split_ifs
    · exact div_nonneg (Nat.cast_nonneg _) (Nat.cast_nonneg _)
    · exact le_refl 0

/-- C8: in `extract_link_features` every anchor with an `href` lands in
exactly one of the three scheme buckets, so the `https`, `http` and
`non` counts sum to the number of anchors with an `href`. -/
theorem claim8_scheme_partition (soup : Soup) (domain : String) :
    ∃ e i ip hs ht non,
      extract_link_features soup domain =
        (.val e, .val i, .val ip, .val hs, .val ht, .val non) ∧
      hs + ht + non = (hrefs soup).length := by
  obtain ⟨-, -, hsum⟩ := linkCounts_foldl domain (hrefs soup) ⟨0, 0, 0, 0, 0, 0⟩
  exact ⟨_, _, _, _, _, _, rfl, by simpa using hsum⟩

/-- C9: `extract_iframes` counts as external exactly the iframes whose
`src` has a network location and does not contain the self-domain
placeholder, and as hidden exactly those whose declared `width` or
`height` is the string `"0"`; the counters are independent, an iframe
with `src="//ads.example.net"` and `width="0"` contributes to both, and
a width of `"0px"` does not count as hidden. -/
theorem claim9_iframes (soup : Soup) :
    extract_iframes soup =
      (.val (soup.iframes.countP iframeExternal),
       .val (soup.iframes.countP iframeHidden)) ∧
    extract_iframes
      { anchors := [],
        iframes := [{ src := some "//ads.example.net",
                      width := some "0", height := none }],
        text := "" } = (.val 1, .val 1) ∧
    iframeHidden { src := none, width := some "0px", height := none }
      = false := by
  refine ⟨?_, by decide, by decide⟩
  unfold extract_iframes
  rw [iframes_foldl]
  simp

/-- C10: in `extract_link_features` every anchor whose `href` has a
non-empty network location is counted as internal when the reference
domain is a substring of that location and as external otherwise, so
the external and internal counts sum to exactly the number of anchors
with a network location, and anchors without one count toward
neither. -/
theorem claim10_external_internal (soup : Soup) (domain : String) :
    ∃ e i ip hs ht non,
      extract_link_features soup domain =
        (.val e, .val i, .val ip, .val hs, .val ht, .val non) ∧
      e = (hrefs soup).countP (linkExternal domain) ∧
      i = (hrefs soup).countP (linkInternal domain) ∧
      e + i = ((hrefs soup).filter (fun l => urlNetloc l ≠ "")).length := by
  obtain ⟨he, hi, -⟩ := linkCounts_foldl domain (hrefs soup) ⟨0, 0, 0, 0, 0, 0⟩
  refine ⟨_, _, _, _, _, _, rfl, by simpa using he, by simpa using hi, ?_⟩
  rw [he, hi, ← List.countP_eq_length_filter]
  simpa using countP_external_internal domain (hrefs soup)

/-- C1: when the page fetch of the current URL's effective target fails
with a timeout or any other request-level error, `create_dataset`
appends no row, leaves the accumulated table exactly as it was, and
goes on to the remaining URLs in input order — the failure is caught
inside the loop and never aborts the batch. -/
theorem claim1_fetch_failure_isolated (env : Env) (url : String)
    (rest : List String) (df : List Row) (prev : Option String)
    (hu : String) (e : FetchErr)
    (htarget : (if urlScheme url = "" then some ("http://" ++ url)
                else prev) = some hu)
    (hfail : env.fetch hu = .error e) :
    create_dataset_go env (url :: rest) df prev =
      create_dataset_go env rest df (some hu) := by
  have hrow := get_row_fetch_error env url hu e hfail
  simp only [create_dataset_go, htarget, hrow]

/-- C1, witness: in an environment where every fetch times out, the
first URL of `["a.com", "b.com"]` is skipped and the loop continues
with `"b.com"` and the untouched empty table. -/
theorem claim1_witness :
    ((if urlScheme "a.com" = "" then some ("http://" ++ "a.com")
      else none) = some "http://a.com") ∧
    envTimeout.fetch "http://a.com" = .error .timeout ∧
    create_dataset_go envTimeout ["a.com", "b.com"] [] none =
      create_dataset_go envTimeout ["b.com"] [] (some "http://a.com") := by
  exact ⟨by decide, rfl,
    claim1_fetch_failure_isolated envTimeout "a.com" ["b.com"] [] none
      "http://a.com" .timeout (by decide) rfl⟩

/-- C3, code evaluation at the failing inputs: because the
`if not urlparse(url).scheme` statement of `create_dataset` has no
`else` branch, a first URL that already carries a scheme makes the
loop read `http_url` before any assignment (`UnboundLocalError`), and a
later URL with a scheme is fetched through the previous iteration's
stale target: after `["b.com", "http://a.com"]` the second row's domain
is `"b.com"`, not `"a.com"`. -/
theorem claim3_code_eval :
    create_dataset envOkEmpty ["http://a.com"] =
      BatchOutcome.unboundLocalError ∧
    tableUrlDomains (create_dataset envOkEmpty ["b.com", "http://a.com"]) =
      some [("b.com", "b.com"), ("http://a.com", "b.com")] := by
  exact ⟨by decide, by decide⟩

/-- C4: the only error that propagates out of `get_row` is the failure
of the initial page fetch, and it is passed through unchanged; whatever
the outcome of the DNS, certificate and WHOIS probes, a successful
fetch always yields a complete row because every extractor converts its
own failures into markers instead of raising. -/
theorem claim4_only_fetch_propagates (env : Env) (url http_url : String) :
    (get_row env url http_url).isOk = (env.fetch http_url).isOk ∧
    ∀ e, (get_row env url http_url = .error e ↔
      env.fetch http_url = .error e) := by
  unfold get_row
  rcases hf : env.fetch http_url with e0 | soup <;>
    simp [hf, Except.isOk, Except.toBool]

/-- C4, witness: instantiated in an all-timeout environment. -/
theorem claim4_witness :
    (get_row envTimeout "a.com" "http://a.com").isOk =
      (envTimeout.fetch "http://a.com").isOk ∧
    (get_row envTimeout "a.com" "http://a.com" = .error .timeout ↔
      envTimeout.fetch "http://a.com" = .error .timeout) := by
  exact ⟨(claim4_only_fetch_propagates envTimeout "a.com" "http://a.com").1,
    (claim4_only_fetch_propagates envTimeout "a.com" "http://a.com").2
      .timeout⟩

/-- C6, code evaluation at the failing input: `main` truncates the
phishing table to 400 twice and never truncates the benign table, so a
benign class of 401 joined rows passes through curation whole — the
final table carries 401 benign rows where the claim allows at most
400. -/
theorem claim6_code_eval :
    (curate id [] benign401 [] []).length = 401 ∧ 400 < 401 := by
  refine ⟨?_, by norm_num⟩
  simp [curate, mergeLeft_labels_nil, benign401]

end PhishScript
